import Mathlib

/-!
Shallow embedding of `src/app.py` (a small Flask contact-form backend):
the per-IP rate limiter, the form validation in `submit_contact`, the
flat-file submission store `save_contact_submission`, and the `/health`
endpoint.  Times are modelled as whole seconds (`Nat`); each request is
handled at a single instant `now`.  The file system is modelled as a
`Storage` value (missing file, corrupt JSON, or a decoded list of
records); a possible write failure is modelled by a `writeOk : Bool`
flag passed to the store.
-/

/-- Python `str.strip()`: remove leading and trailing whitespace.
(Defined over the character list so that it reduces in the kernel;
`String.trim` computes the same string.) -/
def pyStrip (s : String) : String :=
  ⟨((s.data.dropWhile Char.isWhitespace).reverse.dropWhile
      Char.isWhitespace).reverse⟩

/-- Python `c in s` for a single character `c`. -/
def pyContains (s : String) (c : Char) : Bool :=
  s.data.contains c

/-- One entry of the in-memory rate-limit list `contact_requests`
(`src/app.py` lines 98-103: ip, time, email). -/
structure RLEntry where
  ip : String
  time : Nat
  email : String
deriving DecidableEq, Repr

/-- Python `(now - t).seconds` on a `timedelta`: the timedelta is
normalised so that `0 <= seconds < 86400`, i.e. the day part is
discarded.  For whole-second instants this is `(now - t) mod 86400`
with Python's floor-sign `%`, which coincides with `Int`'s `%`
(`Int.emod`) for a positive modulus. -/
def tdSeconds (now t : Nat) : Int :=
  ((now : Int) - (t : Int)) % 86400

/-- The pruning step of the `rate_limit` decorator (`src/app.py`
lines 36-38): keep the entries with `(now - req.time).seconds < 3600`. -/
def pruneRequests (now : Nat) (l : List RLEntry) : List RLEntry :=
  l.filter (fun req => tdSeconds now req.time < 3600)

/-- Static contact configuration `CONTACT_INFO` (`src/app.py` lines 15-24). -/
structure ContactInfo where
  phone : String
  email : String
  service_areas : List String
  weekdays : String
  saturday : String
  sunday : String
deriving DecidableEq, Repr

def CONTACT_INFO : ContactInfo :=
  { phone := "+254710347138"
    email := "rodahkageha21@gmail.com"
    service_areas := ["Nairobi", "Mombasa", "Kisumu", "Nakuru", "Eldoret"]
    weekdays := "8:00 AM - 6:00 PM"
    saturday := "9:00 AM - 4:00 PM"
    sunday := "By Appointment" }

/-- A stored submission record (the dict passed to
`save_contact_submission`, `src/app.py` lines 106-116). -/
structure Record where
  name : String
  email : String
  phone : String
  service : String
  message : String
  contact_method : String
  ip : String
  timestamp : Nat
  user_agent : String
deriving DecidableEq, Repr

/-- The state of `contact_submissions.json`: absent, undecodable JSON,
or a decoded list of records. -/
inductive Storage where
  | missing : Storage
  | corrupt : Storage
  | ok : List Record → Storage
deriving DecidableEq, Repr

/-- `save_contact_submission` (`src/app.py` lines 133-160): read the
existing collection (missing or corrupt file treated as `[]`), append
the new record, keep only the last 100 entries if over capacity, and
rewrite the file.  `writeOk = false` models an I/O failure of the final
write; the function's own `except` swallows it (only logging), leaving
the previous file state. -/
def save_contact_submission (data : Record) (writeOk : Bool)
    (st : Storage) : Storage :=
  let existing_data : List Record :=
    match st with
    | Storage.ok l => l
    | _ => []
  let appended := existing_data ++ [data]
  let final :=
    if appended.length > 100 then appended.drop (appended.length - 100)
    else appended
  if writeOk then Storage.ok final else st

/-- The JSON body of a `/submit` request; `none` fields are absent keys
(`data.get` then supplies the default). -/
structure SubmitData where
  name : Option String
  email : Option String
  phone : Option String
  service : Option String
  message : Option String
  contact_method : Option String
deriving DecidableEq, Repr

/-- A `/submit` HTTP request: client address, parsed JSON body
(`none` when `request.get_json()` yields no data), user agent. -/
structure Request where
  remote_addr : String
  data : Option SubmitData
  user_agent : String
deriving DecidableEq, Repr

/-- A JSON response envelope with its HTTP status
(`jsonify({success, message}), code`). -/
structure Response where
  status : Nat
  success : Bool
  message : String
deriving DecidableEq, Repr

/-- The process state touched by `/submit`: the global
`contact_requests` list, the submission file, and the module-level
`CONTACT_INFO` (read-only in the source, carried here so that its
preservation is a provable statement). -/
structure AppState where
  contact_requests : List RLEntry
  storage : Storage
  contact_info : ContactInfo
deriving DecidableEq, Repr

/-- `POST /submit` (`src/app.py` lines 60-131) together with its
`rate_limit(max_per_hour=5)` decorator (lines 29-53), as a function
from the request, the instant `now`, the write outcome and the state to
the response and the next state. -/
def submit_contact (r : Request) (now : Nat) (writeOk : Bool)
    (s : AppState) : Response × AppState :=
  -- rate_limit decorator: prune, then count this client's entries
  let pruned := pruneRequests now s.contact_requests
  let ip_requests := pruned.filter (fun req => req.ip = r.remote_addr)
  if 5 ≤ ip_requests.length then
    (⟨429, false, "Too many requests. Please try again later."⟩,
     { s with contact_requests := pruned })
  else
    match r.data with
    | none =>
        (⟨400, false, "No data received"⟩,
         { s with contact_requests := pruned })
    | some d =>
        let name := pyStrip (d.name.getD "")
        let email := pyStrip (d.email.getD "")
        let phone := pyStrip (d.phone.getD "")
        let service := d.service.getD ""
        let message := pyStrip (d.message.getD "")
        let contact_method := d.contact_method.getD "phone"
        if name = "" ∨ email = "" ∨ message = "" ∨ service = "" then
          (⟨400, false, "Please fill in all required fields."⟩,
           { s with contact_requests := pruned })
        else if ¬ pyContains email '@' ∨ ¬ pyContains email '.' then
          (⟨400, false, "Please enter a valid email address."⟩,
           { s with contact_requests := pruned })
        else
          let rl := pruned ++ [⟨r.remote_addr, now, email⟩]
          let rec1 : Record :=
            { name := name, email := email, phone := phone
              service := service, message := message
              contact_method := contact_method, ip := r.remote_addr
              timestamp := now, user_agent := r.user_agent }
          let storage1 := save_contact_submission rec1 writeOk s.storage
          (⟨200, true, "Thank you for your message! We will contact you soon."⟩,
           { contact_requests := rl, storage := storage1
             contact_info := s.contact_info })

/-- The body returned by `GET /health` (`src/app.py` lines 167-175). -/
structure HealthResponse where
  httpStatus : Nat
  status : String
  timestamp : Nat
  service : String
  contact_info : ContactInfo
deriving DecidableEq, Repr

/-- `GET /health` (`src/app.py` lines 167-175). -/
def health_check (now : Nat) (s : AppState) : HealthResponse :=
  { httpStatus := 200, status := "healthy", timestamp := now
    service := "Fash Rodah Portfolio", contact_info := s.contact_info }

/-- The process state at startup: empty rate-limit list, the static
contact configuration, and whatever the submission file holds. -/
def initState (st : Storage) : AppState :=
  { contact_requests := [], storage := st, contact_info := CONTACT_INFO }

/-- States reachable from startup through `/submit` calls (the only
state-mutating operation of the program). -/
inductive Reachable : AppState → Prop
  | init (st : Storage) : Reachable (initState st)
  | step (r : Request) (now : Nat) (w : Bool) {s : AppState} :
      Reachable s → Reachable (submit_contact r now w s).2

/-- `save_contact_submission` iterated over a list of records, oldest
first, every write succeeding. -/
def saveAll (rs : List Record) (st : Storage) : Storage :=
  rs.foldl (fun acc r => save_contact_submission r true acc) st

/-- The last 100 elements of a list (`existing_data[-100:]` when the
list is longer than 100, the whole list otherwise; both cases are this
one `drop`). -/
def last100 (l : List Record) : List Record :=
  l.drop (l.length - 100)

/-- A well-formed submission body used for concrete instances. -/
def sampleData : SubmitData :=
  { name := some "Alice", email := some "a@b.c", phone := none
    service := some "cleaning", message := some "hello"
    contact_method := none }

/-- A valid `/submit` request from IP 1.2.3.4. -/
def sampleReq : Request :=
  { remote_addr := "1.2.3.4", data := some sampleData, user_agent := "ua" }

/-- A request identical to `sampleReq` but with the name field absent. -/
def noNameReq : Request :=
  { sampleReq with data := some { sampleData with name := none } }

/-- A request whose email contains an `@` but no `.`. -/
def atNoDotReq : Request :=
  { sampleReq with data := some { sampleData with email := some "a@b" } }

/-- A rate-limit entry recorded at second 0. -/
def staleEntry : RLEntry := { ip := "1.2.3.4", time := 0, email := "a@b.c" }

/-- A state holding five rate-limit entries recorded at second 0. -/
def staleState : AppState :=
  { contact_requests := [staleEntry, staleEntry, staleEntry, staleEntry,
      staleEntry]
    storage := Storage.missing, contact_info := CONTACT_INFO }

/-- A submission record with empty fields, for concrete instances. -/
def sampleRecord : Record :=
  { name := "", email := "", phone := "", service := "", message := ""
    contact_method := "", ip := "", timestamp := 0, user_agent := "" }

/-- State after one accepted `sampleReq` submission at second 0. -/
def chainState1 : AppState :=
  (submit_contact sampleReq 0 true
    { contact_requests := [], storage := Storage.missing
      contact_info := CONTACT_INFO }).2

/-- State after two accepted `sampleReq` submissions. -/
def chainState2 : AppState := (submit_contact sampleReq 1 true chainState1).2

/-- State after three accepted `sampleReq` submissions. -/
def chainState3 : AppState := (submit_contact sampleReq 2 true chainState2).2

/-- State after four accepted `sampleReq` submissions. -/
def chainState4 : AppState := (submit_contact sampleReq 3 true chainState3).2

/-- State after five accepted `sampleReq` submissions. -/
def chainState5 : AppState := (submit_contact sampleReq 4 true chainState4).2

/-! ## Branch lemmas for `submit_contact` -/

/-- When the pruned list already holds five or more entries for the
client's IP, `submit_contact` takes the 429 branch: failure envelope,
only the pruning is applied to the state. -/
theorem submit_limited (r : Request) (now : Nat) (w : Bool) (s : AppState)
    (h : 5 ≤ ((pruneRequests now s.contact_requests).filter
        (fun req => req.ip = r.remote_addr)).length) :
    submit_contact r now w s =
      (⟨429, false, "Too many requests. Please try again later."⟩,
       { s with contact_requests := pruneRequests now s.contact_requests }) := by
  unfold submit_contact
  simp only [if_pos h]

/-- Below the rate limit with no JSON body, `submit_contact` returns
the 400 "No data received" envelope and only prunes the state. -/
theorem submit_no_data (r : Request) (now : Nat) (w : Bool) (s : AppState)
    (h : ¬ 5 ≤ ((pruneRequests now s.contact_requests).filter
        (fun req => req.ip = r.remote_addr)).length)
    (hd : r.data = none) :
    submit_contact r now w s =
      (⟨400, false, "No data received"⟩,
       { s with contact_requests := pruneRequests now s.contact_requests }) := by
  unfold submit_contact
  simp only [if_neg h, hd]

/-- Below the rate limit with a required field missing or empty,
`submit_contact` returns the 400 required-fields envelope and only
prunes the state. -/
theorem submit_missing_fields (r : Request) (now : Nat) (w : Bool)
    (s : AppState) (d : SubmitData)
    (h : ¬ 5 ≤ ((pruneRequests now s.contact_requests).filter
        (fun req => req.ip = r.remote_addr)).length)
    (hd : r.data = some d)
    (hf : pyStrip (d.name.getD "") = "" ∨ pyStrip (d.email.getD "") = "" ∨
          pyStrip (d.message.getD "") = "" ∨ d.service.getD "" = "") :
    submit_contact r now w s =
      (⟨400, false, "Please fill in all required fields."⟩,
       { s with contact_requests := pruneRequests now s.contact_requests }) := by
  unfold submit_contact
  simp only [if_neg h, hd]
  rw [if_pos hf]

/-- Below the rate limit with all required fields present but the email
lacking `@` or lacking `.`, `submit_contact` returns the 400 invalid-email
envelope and only prunes the state. -/
theorem submit_bad_email (r : Request) (now : Nat) (w : Bool) (s : AppState)
    (d : SubmitData)
    (h : ¬ 5 ≤ ((pruneRequests now s.contact_requests).filter
        (fun req => req.ip = r.remote_addr)).length)
    (hd : r.data = some d)
    (hf : ¬ (pyStrip (d.name.getD "") = "" ∨ pyStrip (d.email.getD "") = "" ∨
          pyStrip (d.message.getD "") = "" ∨ d.service.getD "" = ""))
    (he : ¬ pyContains (pyStrip (d.email.getD "")) '@' ∨
          ¬ pyContains (pyStrip (d.email.getD "")) '.') :
    submit_contact r now w s =
      (⟨400, false, "Please enter a valid email address."⟩,
       { s with contact_requests := pruneRequests now s.contact_requests }) := by
  unfold submit_contact
  simp only [if_neg h, hd]
  rw [if_neg hf, if_pos he]

/-- Below the rate limit with a fully valid body, `submit_contact`
returns the 200 success envelope, appends the rate-limit entry, and
writes the record through `save_contact_submission`. -/
theorem submit_accepted (r : Request) (now : Nat) (w : Bool) (s : AppState)
    (d : SubmitData)
    (h : ¬ 5 ≤ ((pruneRequests now s.contact_requests).filter
        (fun req => req.ip = r.remote_addr)).length)
    (hd : r.data = some d)
    (hf : ¬ (pyStrip (d.name.getD "") = "" ∨ pyStrip (d.email.getD "") = "" ∨
          pyStrip (d.message.getD "") = "" ∨ d.service.getD "" = ""))
    (he : ¬ (¬ pyContains (pyStrip (d.email.getD "")) '@' ∨
          ¬ pyContains (pyStrip (d.email.getD "")) '.')) :
    submit_contact r now w s =
      (⟨200, true, "Thank you for your message! We will contact you soon."⟩,
       { contact_requests := pruneRequests now s.contact_requests ++
           [⟨r.remote_addr, now, pyStrip (d.email.getD "")⟩],
         storage := save_contact_submission
           { name := pyStrip (d.name.getD ""), email := pyStrip (d.email.getD "")
             phone := pyStrip (d.phone.getD ""), service := d.service.getD ""
             message := pyStrip (d.message.getD "")
             contact_method := d.contact_method.getD "phone", ip := r.remote_addr
             timestamp := now, user_agent := r.user_agent } w s.storage,
         contact_info := s.contact_info }) := by
  unfold submit_contact
  simp only [if_neg h, hd]
  rw [if_neg hf, if_neg he]

/-! ## Derived lemmas -/

/-- Pruning keeps a list whose entries are all younger than one hour. -/
theorem prune_eq_self (now : Nat) (l : List RLEntry)
    (h : ∀ e ∈ l, e.time ≤ now ∧ now - e.time < 3600) :
    pruneRequests now l = l := by
  unfold pruneRequests
  apply List.filter_eq_self.mpr
  intro e he
  have h2 := h e he
  have hmod2 : ((now : Int) - (e.time : Int)) % 86400 =
      ((now : Int) - (e.time : Int)) :=
    Int.emod_eq_of_lt (by omega) (by omega)
  simp only [tdSeconds, hmod2, decide_eq_true_eq]
  omega

/-- An accepted call appends exactly one entry, carrying the client's
address and the submission instant, to the pruned list. -/
theorem submit_accepted_cr (r : Request) (now : Nat) (w : Bool) (s : AppState)
    (h : (submit_contact r now w s).1.status = 200) :
    ∃ e, (submit_contact r now w s).2.contact_requests =
      pruneRequests now s.contact_requests ++ [⟨r.remote_addr, now, e⟩] := by
  by_cases hlim : 5 ≤ ((pruneRequests now s.contact_requests).filter
      (fun req => req.ip = r.remote_addr)).length
  · rw [submit_limited r now w s hlim] at h
    simp at h
  · cases hd : r.data with
    | none => rw [submit_no_data r now w s hlim hd] at h; simp at h
    | some d =>
      by_cases hf : (pyStrip (d.name.getD "") = "" ∨ pyStrip (d.email.getD "") = "" ∨
          pyStrip (d.message.getD "") = "" ∨ d.service.getD "" = "")
      · rw [submit_missing_fields r now w s d hlim hd hf] at h; simp at h
      · by_cases he : (¬ pyContains (pyStrip (d.email.getD "")) '@' ∨
            ¬ pyContains (pyStrip (d.email.getD "")) '.')
        · rw [submit_bad_email r now w s d hlim hd hf he] at h; simp at h
        · exact ⟨pyStrip (d.email.getD ""),
            by rw [submit_accepted r now w s d hlim hd hf he]⟩

/-- A call whose response is accepted carries the literal success
envelope. -/
theorem submit_accepted_resp (r : Request) (now : Nat) (w : Bool) (s : AppState)
    (h : (submit_contact r now w s).1.status = 200) :
    (submit_contact r now w s).1 =
      ⟨200, true, "Thank you for your message! We will contact you soon."⟩ := by
  by_cases hlim : 5 ≤ ((pruneRequests now s.contact_requests).filter
      (fun req => req.ip = r.remote_addr)).length
  · rw [submit_limited r now w s hlim] at h
    simp at h
  · cases hd : r.data with
    | none => rw [submit_no_data r now w s hlim hd] at h; simp at h
    | some d =>
      by_cases hf : (pyStrip (d.name.getD "") = "" ∨ pyStrip (d.email.getD "") = "" ∨
          pyStrip (d.message.getD "") = "" ∨ d.service.getD "" = "")
      · rw [submit_missing_fields r now w s d hlim hd hf] at h; simp at h
      · by_cases he : (¬ pyContains (pyStrip (d.email.getD "")) '@' ∨
            ¬ pyContains (pyStrip (d.email.getD "")) '.')
        · rw [submit_bad_email r now w s d hlim hd hf he] at h; simp at h
        · rw [submit_accepted r now w s d hlim hd hf he]

/-- A rejected call (any non-200 response) leaves the state unchanged
except for the pruning performed by the decorator. -/
theorem submit_not_accepted (r : Request) (now : Nat) (w : Bool) (s : AppState)
    (h : (submit_contact r now w s).1.status ≠ 200) :
    (submit_contact r now w s).2 =
      { s with contact_requests := pruneRequests now s.contact_requests } := by
  by_cases hlim : 5 ≤ ((pruneRequests now s.contact_requests).filter
      (fun req => req.ip = r.remote_addr)).length
  · rw [submit_limited r now w s hlim]
  · cases hd : r.data with
    | none => rw [submit_no_data r now w s hlim hd]
    | some d =>
      by_cases hf : (pyStrip (d.name.getD "") = "" ∨ pyStrip (d.email.getD "") = "" ∨
          pyStrip (d.message.getD "") = "" ∨ d.service.getD "" = "")
      · rw [submit_missing_fields r now w s d hlim hd hf]
      · by_cases he : (¬ pyContains (pyStrip (d.email.getD "")) '@' ∨
            ¬ pyContains (pyStrip (d.email.getD "")) '.')
        · rw [submit_bad_email r now w s d hlim hd hf he]
        · exact absurd (by rw [submit_accepted r now w s d hlim hd hf he]) h

/-- The static contact configuration is never changed by `/submit`. -/
theorem submit_contact_info (r : Request) (now : Nat) (w : Bool) (s : AppState) :
    (submit_contact r now w s).2.contact_info = s.contact_info := by
  simp only [submit_contact]
  repeat' split
  all_goals rfl

/-- The response of `/submit` does not depend on whether the file write
inside `save_contact_submission` succeeds. -/
theorem submit_resp_write_indep (r : Request) (now : Nat) (s : AppState)
    (w w' : Bool) :
    (submit_contact r now w s).1 = (submit_contact r now w' s).1 := by
  simp only [submit_contact]
  repeat' split
  all_goals rfl

/-- A successful write over a decoded file keeps exactly the last 100
elements of the appended list. -/
theorem save_ok_eq (r : Record) (l : List Record) :
    save_contact_submission r true (Storage.ok l) =
      Storage.ok (last100 (l ++ [r])) := by
  unfold save_contact_submission last100
  simp only []
  split
  · split
    · rfl
    · rename_i h
      have hz : (l ++ [r]).length - 100 = 0 := by
        simp only [gt_iff_lt, not_lt] at h
        omega
      rw [hz, List.drop_zero]
  · rename_i h
    exact absurd trivial h

/-- `last100` never returns more than 100 elements. -/
theorem last100_length (l : List Record) : (last100 l).length ≤ 100 := by
  unfold last100
  rw [List.length_drop]
  omega

/-- Truncating, appending, and truncating again equals truncating the
plain concatenation. -/
theorem last100_append_left (a b : List Record) :
    last100 (last100 a ++ b) = last100 (a ++ b) := by
  unfold last100
  simp only [List.drop_append_eq_append_drop, List.length_drop,
    List.length_append, List.drop_drop]
  congr 1
  · congr 1
    omega
  · congr 1
    omega

/-- Sequential successful writes over a decoded file of at most 100
records leave the last 100 of the whole history, oldest first. -/
theorem saveAll_ok (rs : List Record) :
    ∀ l : List Record, l.length ≤ 100 →
      saveAll rs (Storage.ok l) = Storage.ok (last100 (l ++ rs)) := by
  induction rs with
  | nil =>
    intro l hl
    unfold saveAll last100
    simp only [List.foldl_nil, List.append_nil]
    have hz : l.length - 100 = 0 := by omega
    rw [hz, List.drop_zero]
  | cons r rs ih =>
    intro l hl
    show saveAll rs (save_contact_submission r true (Storage.ok l)) = _
    rw [save_ok_eq, ih _ (last100_length _), last100_append_left]
    rw [List.append_assoc]
    rfl

/-- A successful write over a missing file stores exactly the record. -/
theorem save_missing_eq (r : Record) :
    save_contact_submission r true Storage.missing = Storage.ok [r] := by
  unfold save_contact_submission
  simp

/-- A successful write over an undecodable file stores exactly the
record. -/
theorem save_corrupt_eq (r : Record) :
    save_contact_submission r true Storage.corrupt = Storage.ok [r] := by
  unfold save_contact_submission
  simp

/-! ## Claims -/

/-- C1: after five accepted (HTTP 200) submissions from the same IP at
instants within the trailing hour of the sixth request, a sixth
`POST /submit` from that IP — with an arbitrary body, so before any
validation — is rejected with HTTP 429 and a failure envelope, and the
submission store is not written. -/
theorem c1_sixth_submission_rejected
    (ip : String) (st0 : Storage) (ci : ContactInfo)
    (r1 r2 r3 r4 r5 r6 : Request) (t1 t2 t3 t4 t5 t6 : Nat)
    (w1 w2 w3 w4 w5 w6 : Bool)
    (s1 s2 s3 s4 s5 : AppState)
    (hip1 : r1.remote_addr = ip) (hip2 : r2.remote_addr = ip)
    (hip3 : r3.remote_addr = ip) (hip4 : r4.remote_addr = ip)
    (hip5 : r5.remote_addr = ip) (hip6 : r6.remote_addr = ip)
    (h12 : t1 ≤ t2) (h23 : t2 ≤ t3) (h34 : t3 ≤ t4) (h45 : t4 ≤ t5)
    (h56 : t5 ≤ t6) (hwin : t6 - t1 < 3600)
    (e1 : s1 = (submit_contact r1 t1 w1
      { contact_requests := [], storage := st0, contact_info := ci }).2)
    (a1 : (submit_contact r1 t1 w1
      { contact_requests := [], storage := st0, contact_info := ci }).1.status = 200)
    (e2 : s2 = (submit_contact r2 t2 w2 s1).2)
    (a2 : (submit_contact r2 t2 w2 s1).1.status = 200)
    (e3 : s3 = (submit_contact r3 t3 w3 s2).2)
    (a3 : (submit_contact r3 t3 w3 s2).1.status = 200)
    (e4 : s4 = (submit_contact r4 t4 w4 s3).2)
    (a4 : (submit_contact r4 t4 w4 s3).1.status = 200)
    (e5 : s5 = (submit_contact r5 t5 w5 s4).2)
    (a5 : (submit_contact r5 t5 w5 s4).1.status = 200) :
    (submit_contact r6 t6 w6 s5).1.status = 429 ∧
    (submit_contact r6 t6 w6 s5).1.success = false ∧
    (submit_contact r6 t6 w6 s5).2.storage = s5.storage := by
  obtain ⟨m1, hcr1⟩ := submit_accepted_cr _ _ _ _ a1
  rw [← e1] at hcr1
  have hcr1' : s1.contact_requests = [⟨ip, t1, m1⟩] := by
    rw [hcr1, hip1]; rfl
  obtain ⟨m2, hcr2⟩ := submit_accepted_cr _ _ _ _ a2
  rw [← e2] at hcr2
  have hp2 : pruneRequests t2 s1.contact_requests = s1.contact_requests := by
    apply prune_eq_self
    rw [hcr1']
    intro e he
    simp at he
    subst he
    show t1 ≤ t2 ∧ t2 - t1 < 3600
    omega
  have hcr2' : s2.contact_requests = [⟨ip, t1, m1⟩, ⟨ip, t2, m2⟩] := by
    rw [hcr2, hp2, hcr1', hip2]; rfl
  obtain ⟨m3, hcr3⟩ := submit_accepted_cr _ _ _ _ a3
  rw [← e3] at hcr3
  have hp3 : pruneRequests t3 s2.contact_requests = s2.contact_requests := by
    apply prune_eq_self
    rw [hcr2']
    intro e he
    simp at he
    rcases he with he | he
    · subst he
      show t1 ≤ t3 ∧ t3 - t1 < 3600
      omega
    · subst he
      show t2 ≤ t3 ∧ t3 - t2 < 3600
      omega
  have hcr3' : s3.contact_requests =
      [⟨ip, t1, m1⟩, ⟨ip, t2, m2⟩, ⟨ip, t3, m3⟩] := by
    rw [hcr3, hp3, hcr2', hip3]; rfl
  obtain ⟨m4, hcr4⟩ := submit_accepted_cr _ _ _ _ a4
  rw [← e4] at hcr4
  have hp4 : pruneRequests t4 s3.contact_requests = s3.contact_requests := by
    apply prune_eq_self
    rw [hcr3']
    intro e he
    simp at he
    rcases he with he | he | he
    · subst he
      show t1 ≤ t4 ∧ t4 - t1 < 3600
      omega
    · subst he
      show t2 ≤ t4 ∧ t4 - t2 < 3600
      omega
    · subst he
      show t3 ≤ t4 ∧ t4 - t3 < 3600
      omega
  have hcr4' : s4.contact_requests =
      [⟨ip, t1, m1⟩, ⟨ip, t2, m2⟩, ⟨ip, t3, m3⟩, ⟨ip, t4, m4⟩] := by
    rw [hcr4, hp4, hcr3', hip4]; rfl
  obtain ⟨m5, hcr5⟩ := submit_accepted_cr _ _ _ _ a5
  rw [← e5] at hcr5
  have hp5 : pruneRequests t5 s4.contact_requests = s4.contact_requests := by
    apply prune_eq_self
    rw [hcr4']
    intro e he
    simp at he
    rcases he with he | he | he | he
    · subst he
      show t1 ≤ t5 ∧ t5 - t1 < 3600
      omega
    · subst he
      show t2 ≤ t5 ∧ t5 - t2 < 3600
      omega
    · subst he
      show t3 ≤ t5 ∧ t5 - t3 < 3600
      omega
    · subst he
      show t4 ≤ t5 ∧ t5 - t4 < 3600
      omega
  have hcr5' : s5.contact_requests =
      [⟨ip, t1, m1⟩, ⟨ip, t2, m2⟩, ⟨ip, t3, m3⟩, ⟨ip, t4, m4⟩,
       ⟨ip, t5, m5⟩] := by
    rw [hcr5, hp5, hcr4', hip5]; rfl
  have hp6 : pruneRequests t6 s5.contact_requests = s5.contact_requests := by
    apply prune_eq_self
    rw [hcr5']
    intro e he
    simp at he
    rcases he with he | he | he | he | he
    · subst he
      show t1 ≤ t6 ∧ t6 - t1 < 3600
      omega
    · subst he
      show t2 ≤ t6 ∧ t6 - t2 < 3600
      omega
    · subst he
      show t3 ≤ t6 ∧ t6 - t3 < 3600
      omega
    · subst he
      show t4 ≤ t6 ∧ t6 - t4 < 3600
      omega
    · subst he
      show t5 ≤ t6 ∧ t6 - t5 < 3600
      omega
  have hcount : 5 ≤ ((pruneRequests t6 s5.contact_requests).filter
      (fun req => req.ip = r6.remote_addr)).length := by
    rw [hp6, hcr5', hip6]
    simp
  rw [submit_limited r6 t6 w6 s5 hcount]
  exact ⟨rfl, rfl, rfl⟩

/-- C1 witness: five accepted submissions from 1.2.3.4 at seconds
0..4, then a sixth at second 5 is rejected with 429, failure envelope,
store untouched. -/
theorem c1_sixth_submission_rejected_witness :
    (submit_contact sampleReq 5 true chainState5).1.status = 429 ∧
    (submit_contact sampleReq 5 true chainState5).1.success = false ∧
    (submit_contact sampleReq 5 true chainState5).2.storage =
      chainState5.storage :=
  c1_sixth_submission_rejected "1.2.3.4" Storage.missing CONTACT_INFO
    sampleReq sampleReq sampleReq sampleReq sampleReq sampleReq
    0 1 2 3 4 5 true true true true true true
    chainState1 chainState2 chainState3 chainState4 chainState5
    rfl rfl rfl rfl rfl rfl
    (by decide) (by decide) (by decide) (by decide) (by decide) (by decide)
    rfl (by decide) rfl (by decide) rfl (by decide) rfl (by decide)
    rfl (by decide)

/-- C2: the code does not discard all entries older than one hour.
`(now - t).seconds` drops the day part of the timedelta, so a two-hour
old entry is pruned, but an entry aged 24 h 1 min survives pruning and
still counts: with five such stale entries a submission attempt made
long after the window has elapsed is rejected with 429, contradicting
both the claim and the code's own comment "Clean old requests (older
than 1 hour)". -/
theorem c2_day_old_entries_survive :
    pruneRequests 7200 [staleEntry] = [] ∧
    pruneRequests 86460 [staleEntry] = [staleEntry] ∧
    (submit_contact sampleReq 86460 true staleState).1.status = 429 := by
  decide

/-- C3 counterexample: a request whose name field is missing is
rejected with 400 and adds no rate-limit entry — starting from an empty
list, the list is still empty afterwards, refuting "every call that
reaches the check increments the client's count". -/
theorem c3_rejected_not_recorded :
    (submit_contact noNameReq 0 true (initState Storage.missing)).1.status = 400 ∧
    (submit_contact noNameReq 0 true
      (initState Storage.missing)).2.contact_requests = [] := by
  decide

/-- C3 amended: a rate-limit entry is appended exactly for calls whose
response is 200 (accepted submissions); a call rejected with 400 or 429
leaves the list at its pruned value, adding nothing. -/
theorem c3_entry_added_iff_accepted (r : Request) (now : Nat) (w : Bool)
    (s : AppState) :
    ((submit_contact r now w s).1.status = 200 ∧
      ∃ e, (submit_contact r now w s).2.contact_requests =
        pruneRequests now s.contact_requests ++ [⟨r.remote_addr, now, e⟩]) ∨
    ((submit_contact r now w s).1.status ≠ 200 ∧
      (submit_contact r now w s).2.contact_requests =
        pruneRequests now s.contact_requests) := by
  by_cases h : (submit_contact r now w s).1.status = 200
  · exact Or.inl ⟨h, submit_accepted_cr r now w s h⟩
  · refine Or.inr ⟨h, ?_⟩
    rw [submit_not_accepted r now w s h]

/-- C4: every successful write leaves a decoded store of at most 100
records, and 101 sequential writes starting from a missing file leave
exactly the last 100 records, oldest first. -/
theorem c4_store_capped :
    (∀ (rec1 : Record) (st : Storage), ∃ l : List Record,
        save_contact_submission rec1 true st = Storage.ok l ∧
        l.length ≤ 100) ∧
    (∀ rs : List Record, rs.length = 101 →
        saveAll rs Storage.missing = Storage.ok (rs.drop 1)) := by
  constructor
  · intro rec1 st
    cases st with
    | missing => exact ⟨[rec1], save_missing_eq rec1, by simp⟩
    | corrupt => exact ⟨[rec1], save_corrupt_eq rec1, by simp⟩
    | ok l => exact ⟨last100 (l ++ [rec1]), save_ok_eq rec1 l, last100_length _⟩
  · intro rs hlen
    cases rs with
    | nil => simp at hlen
    | cons r rs' =>
      show saveAll rs' (save_contact_submission r true Storage.missing) = _
      rw [save_missing_eq, saveAll_ok rs' [r] (by simp)]
      unfold last100
      simp only [List.length_append, List.length_cons, List.length_nil,
        List.singleton_append, List.drop_one] at *
      congr 1
      have h1 : rs'.length + 1 - 100 = 1 := by omega
      rw [h1]
      rfl

/-- C4 witness: writing 101 copies of a record into a missing store
leaves exactly the last 100. -/
theorem c4_store_capped_witness :
    (List.replicate 101 sampleRecord).length = 101 ∧
    saveAll (List.replicate 101 sampleRecord) Storage.missing =
      Storage.ok ((List.replicate 101 sampleRecord).drop 1) :=
  ⟨by simp, c4_store_capped.2 _ (by simp)⟩

/-- C5 counterexample: a valid submission whose store write fails still
receives the 200 success envelope, not the claimed 500, because
`save_contact_submission` catches its own exceptions and only logs
them. -/
theorem c5_write_failure_returns_200 :
    (submit_contact sampleReq 0 false (initState Storage.missing)).1 =
      ⟨200, true, "Thank you for your message! We will contact you soon."⟩ := by
  decide

/-- C5 amended: an internal failure during the store write never
changes the response — the endpoint's reply is independent of the write
outcome, and a request that passes validation receives the 200 success
envelope even when the write fails. -/
theorem c5_store_failure_swallowed (r : Request) (now : Nat) (s : AppState)
    (w w' : Bool) :
    (submit_contact r now w s).1 = (submit_contact r now w' s).1 ∧
    ((submit_contact r now true s).1.status = 200 →
      (submit_contact r now false s).1 =
        ⟨200, true, "Thank you for your message! We will contact you soon."⟩) := by
  constructor
  · exact submit_resp_write_indep r now s w w'
  · intro h
    rw [submit_resp_write_indep r now s false true]
    exact submit_accepted_resp r now true s h

/-- C5 witness: the sample valid request is accepted, and with a
failing write it still gets the 200 success envelope. -/
theorem c5_store_failure_swallowed_witness :
    (submit_contact sampleReq 0 true (initState Storage.missing)).1.status = 200 ∧
    (submit_contact sampleReq 0 false (initState Storage.missing)).1 =
      ⟨200, true, "Thank you for your message! We will contact you soon."⟩ :=
  ⟨by decide, (c5_store_failure_swallowed sampleReq 0
    (initState Storage.missing) true false).2 (by decide)⟩

/-- C6 counterexample: the email "a@b" contains an "@" — one of the two
characters — yet the endpoint rejects it with the 400 invalid-email
envelope, refuting "an email containing at least one of the two
characters passes the email-format check". -/
theorem c6_at_without_dot_rejected :
    pyContains "a@b" '@' = true ∧
    (submit_contact atNoDotReq 0 true (initState Storage.missing)).1 =
      ⟨400, false, "Please enter a valid email address."⟩ := by
  decide

/-- C6 amended: for a request that reaches the email check (below the
rate limit, body present, required fields non-empty), the endpoint
returns the 400 invalid-email envelope exactly when the stripped email
lacks "@" or lacks "."; it is accepted (200) exactly when the email
contains both. -/
theorem c6_email_needs_at_and_dot (r : Request) (now : Nat) (w : Bool)
    (s : AppState) (d : SubmitData)
    (hlim : ¬ 5 ≤ ((pruneRequests now s.contact_requests).filter
        (fun req => req.ip = r.remote_addr)).length)
    (hd : r.data = some d)
    (hf : ¬ (pyStrip (d.name.getD "") = "" ∨ pyStrip (d.email.getD "") = "" ∨
          pyStrip (d.message.getD "") = "" ∨ d.service.getD "" = "")) :
    ((submit_contact r now w s).1 =
        ⟨400, false, "Please enter a valid email address."⟩ ↔
      ¬ (pyContains (pyStrip (d.email.getD "")) '@' = true ∧
         pyContains (pyStrip (d.email.getD "")) '.' = true)) ∧
    ((submit_contact r now w s).1.status = 200 ↔
      (pyContains (pyStrip (d.email.getD "")) '@' = true ∧
       pyContains (pyStrip (d.email.getD "")) '.' = true)) := by
  by_cases he : (¬ pyContains (pyStrip (d.email.getD "")) '@' ∨
      ¬ pyContains (pyStrip (d.email.getD "")) '.')
  · rw [submit_bad_email r now w s d hlim hd hf he]
    refine ⟨⟨fun _ => by tauto, fun _ => rfl⟩,
      ⟨fun hc => by simp at hc, fun hc => absurd hc (by tauto)⟩⟩
  · rw [submit_accepted r now w s d hlim hd hf he]
    push_neg at he
    refine ⟨⟨fun hc => ?_, fun hc => absurd he hc⟩, ⟨fun _ => he, fun _ => rfl⟩⟩
    simp at hc

/-- C6 witness: the amended equivalence at the sample request, whose
email "a@b.c" contains both characters and is accepted. -/
theorem c6_email_needs_at_and_dot_witness :
    ((submit_contact sampleReq 0 true (initState Storage.missing)).1 =
        ⟨400, false, "Please enter a valid email address."⟩ ↔
      ¬ (pyContains (pyStrip (sampleData.email.getD "")) '@' = true ∧
         pyContains (pyStrip (sampleData.email.getD "")) '.' = true)) ∧
    ((submit_contact sampleReq 0 true (initState Storage.missing)).1.status = 200 ↔
      (pyContains (pyStrip (sampleData.email.getD "")) '@' = true ∧
       pyContains (pyStrip (sampleData.email.getD "")) '.' = true)) :=
  c6_email_needs_at_and_dot sampleReq 0 true (initState Storage.missing)
    sampleData (by decide) rfl (by decide)

/-- C7: for a request below the rate limit whose body is present but
has a required field (name, email, message — whitespace-stripped — or
service) missing or empty, the endpoint returns the 400
required-fields failure envelope and the submission store is not
written. -/
theorem c7_missing_fields_rejected (r : Request) (now : Nat) (w : Bool)
    (s : AppState) (d : SubmitData)
    (hlim : ¬ 5 ≤ ((pruneRequests now s.contact_requests).filter
        (fun req => req.ip = r.remote_addr)).length)
    (hd : r.data = some d)
    (hf : pyStrip (d.name.getD "") = "" ∨ pyStrip (d.email.getD "") = "" ∨
          pyStrip (d.message.getD "") = "" ∨ d.service.getD "" = "") :
    (submit_contact r now w s).1 =
      ⟨400, false, "Please fill in all required fields."⟩ ∧
    (submit_contact r now w s).2.storage = s.storage := by
  rw [submit_missing_fields r now w s d hlim hd hf]
  exact ⟨rfl, rfl⟩

/-- C7 witness: the request with no name field gets the 400
required-fields envelope and the store stays missing. -/
theorem c7_missing_fields_rejected_witness :
    (¬ 5 ≤ ((pruneRequests 0 (initState Storage.missing).contact_requests).filter
        (fun req => req.ip = noNameReq.remote_addr)).length) ∧
    (submit_contact noNameReq 0 true (initState Storage.missing)).1 =
      ⟨400, false, "Please fill in all required fields."⟩ ∧
    (submit_contact noNameReq 0 true (initState Storage.missing)).2.storage =
      (initState Storage.missing).storage :=
  ⟨by decide, c7_missing_fields_rejected noNameReq 0 true
    (initState Storage.missing) { sampleData with name := none }
    (by decide) rfl (by decide)⟩

/-- C8: a successful write over a missing or corrupt store treats the
existing collection as empty, so the resulting store holds exactly the
new record. -/
theorem c8_corrupt_storage_tolerated (rec1 : Record) (st : Storage)
    (h : st = Storage.missing ∨ st = Storage.corrupt) :
    save_contact_submission rec1 true st = Storage.ok [rec1] := by
  rcases h with h | h
  · rw [h]; exact save_missing_eq rec1
  · rw [h]; exact save_corrupt_eq rec1

/-- C8 witness: writing the sample record over a missing store yields
exactly that record. -/
theorem c8_corrupt_storage_tolerated_witness :
    (Storage.missing = Storage.missing ∨ Storage.missing = Storage.corrupt) ∧
    save_contact_submission sampleRecord true Storage.missing =
      Storage.ok [sampleRecord] :=
  ⟨Or.inl rfl, c8_corrupt_storage_tolerated sampleRecord Storage.missing
    (Or.inl rfl)⟩

/-- C9: on every state reachable from startup, `GET /health` returns
HTTP 200 with status "healthy" and the static contact configuration
unchanged — no operation ever mutates `CONTACT_INFO`. -/
theorem c9_health_static (s : AppState) (h : Reachable s) (now : Nat) :
    health_check now s =
      { httpStatus := 200, status := "healthy", timestamp := now,
        service := "Fash Rodah Portfolio", contact_info := CONTACT_INFO } := by
  have hci : s.contact_info = CONTACT_INFO := by
    induction h with
    | init st => rfl
    | step r now' w' hs ih => rw [submit_contact_info]; exact ih
  unfold health_check
  rw [hci]

/-- C9 witness: the health check at the startup state. -/
theorem c9_health_static_witness :
    health_check 0 (initState Storage.missing) =
      { httpStatus := 200, status := "healthy", timestamp := 0,
        service := "Fash Rodah Portfolio", contact_info := CONTACT_INFO } :=
  c9_health_static _ (Reachable.init Storage.missing) 0

/-- C10: a `POST /submit` rejected with HTTP 400 leaves the submission
file unchanged and appends no rate-limit entry — the resulting list is
exactly the pruning of the previous one. -/
theorem c10_rejected_request_no_effect (r : Request) (now : Nat) (w : Bool)
    (s : AppState) (h : (submit_contact r now w s).1.status = 400) :
    (submit_contact r now w s).2.storage = s.storage ∧
    (submit_contact r now w s).2.contact_requests =
      pruneRequests now s.contact_requests := by
  have h2 := submit_not_accepted r now w s (by rw [h]; decide)
  rw [h2]
  exact ⟨rfl, rfl⟩

/-- C10 witness: the no-name request is a 400 whose only state change
is the pruning. -/
theorem c10_rejected_request_no_effect_witness :
    (submit_contact noNameReq 0 true (initState Storage.missing)).1.status = 400 ∧
    (submit_contact noNameReq 0 true (initState Storage.missing)).2.storage =
      (initState Storage.missing).storage ∧
    (submit_contact noNameReq 0 true
      (initState Storage.missing)).2.contact_requests =
      pruneRequests 0 (initState Storage.missing).contact_requests :=
  ⟨by decide, c10_rejected_request_no_effect noNameReq 0 true
    (initState Storage.missing) (by decide)⟩
